import Mathlib

/-!
Verification of the KasaReputationDashboard review-aggregation pipeline.

This file gives a shallow embedding of the pipeline's core code:

* `src/lib/scoring.ts` — score normalization and the review-volume-weighted
  composite average (`normalizeScore`, `calculateWeightedAverage`);
* the channel adapters' search/match/confidence logic
  (`src/lib/api-clients/{google-places,tripadvisor,booking,expedia,airbnb}.ts`);
* the fetch-orchestration route handler (`POST /api/reviews/fetch`): pre-flight
  key check, 24-hour cache check, sequential Google phase with name resolution,
  parallel phase for the four remaining channels, snapshot persistence and
  hotel URL updates.

JavaScript numbers are modelled as exact rationals (`ℚ`); `Math.round` is
`⌊x + 1/2⌋`, which agrees with JS `Math.round` on every input (half rounds
toward +∞).  Network calls are modelled by passing the upstream responses (or
a thrown-error outcome, `Except`) as explicit inputs; raw JSON payloads that
the orchestrator probes are modelled by a record holding exactly the fields
the code reads.  JS truthiness on strings/numbers (`''`/`0` are falsy) is
modelled by the `truthy*` helpers.
-/

namespace KasaRep

/-- JS `Math.round`: rounds to the nearest integer, halves toward +∞. -/
def jsRound (x : ℚ) : ℤ := ⌊x + 1/2⌋

/-- `Math.round(x * 100) / 100` — round to 2 decimal places. -/
def round2 (x : ℚ) : ℚ := (jsRound (x * 100) : ℚ) / 100

/-- `Math.round(x * 10) / 10` — round to 1 decimal place. -/
def round1 (x : ℚ) : ℚ := (jsRound (x * 10) : ℚ) / 10

/-- The closed channel enum of `src/lib/types.ts`. -/
inductive Channel
  | google
  | tripadvisor
  | expedia
  | booking
  | airbnb
deriving DecidableEq, Repr

/-- `NORMALIZATION_FACTORS` of `src/lib/scoring.ts`. -/
def NORMALIZATION_FACTORS : Channel → ℚ
  | .google => 2
  | .tripadvisor => 2
  | .expedia => 1
  | .booking => 1
  | .airbnb => 2

/-- `normalizeScore` of `src/lib/scoring.ts`:
`Math.round(rawScore * factor * 100) / 100`. -/
def normalizeScore (rawScore : ℚ) (channel : Channel) : ℚ :=
  round2 (rawScore * NORMALIZATION_FACTORS channel)

/-- `ChannelScore` of `src/lib/types.ts`. -/
structure ChannelScore where
  average_score : Option ℚ
  normalized_score : Option ℚ
  total_reviews : Option ℤ
  fetched_at : Option String
deriving DecidableEq

/-- `ChannelScores` of `src/lib/types.ts`: one optional entry per channel. -/
structure ChannelScores where
  google : Option ChannelScore
  tripadvisor : Option ChannelScore
  expedia : Option ChannelScore
  booking : Option ChannelScore
  airbnb : Option ChannelScore
deriving DecidableEq

/-- `scores[channel]` lookup. -/
def ChannelScores.get (s : ChannelScores) : Channel → Option ChannelScore
  | .google => s.google
  | .tripadvisor => s.tripadvisor
  | .expedia => s.expedia
  | .booking => s.booking
  | .airbnb => s.airbnb

/-- The fixed channel list iterated by `calculateWeightedAverage`. -/
def allChannels : List Channel := [.google, .tripadvisor, .expedia, .booking, .airbnb]

/-- One loop iteration of `calculateWeightedAverage`: accumulate
`normalized_score × total_reviews` and `total_reviews` when the channel has a
non-null normalized score and a non-null, strictly positive review count. -/
def wStep (scores : ChannelScores) (acc : ℚ × ℚ) (c : Channel) : ℚ × ℚ :=
  match scores.get c with
  | some s =>
    match s.normalized_score, s.total_reviews with
    | some ns, some tr =>
      if 0 < tr then (acc.1 + ns * (tr : ℚ), acc.2 + (tr : ℚ)) else acc
    | _, _ => acc
  | none => acc

/-- `calculateWeightedAverage` of `src/lib/scoring.ts`. -/
def calculateWeightedAverage (scores : ChannelScores) : Option ℚ :=
  let acc := allChannels.foldl (wStep scores) (0, 0)
  if acc.2 = 0 then none else some (round2 (acc.1 / acc.2))

/-- The qualification test of the loop body, as a Bool. -/
def qualifies (scores : ChannelScores) (c : Channel) : Bool :=
  match scores.get c with
  | some s =>
    match s.normalized_score, s.total_reviews with
    | some _, some tr => decide (0 < tr)
    | _, _ => false
  | none => false

/-- Normalized score of a channel, defaulting to 0 (only used under
`qualifies`). -/
def nsOf (scores : ChannelScores) (c : Channel) : ℚ :=
  (((scores.get c).bind (fun s => s.normalized_score)).getD 0)

/-- Review count of a channel as a rational, defaulting to 0 (only used under
`qualifies`). -/
def trOf (scores : ChannelScores) (c : Channel) : ℚ :=
  ((((scores.get c).bind (fun s => s.total_reviews)).getD 0 : ℤ) : ℚ)

/-- Does the first list start the second (character-wise)? -/
def strStarts : List Char → List Char → Bool
  | [], _ => true
  | _ :: _, [] => false
  | a :: as, b :: bs => a = b && strStarts as bs

/-- Does the first list occur contiguously inside the second? -/
def strHasSub (needle : List Char) : List Char → Bool
  | [] => strStarts needle []
  | b :: bs => strStarts needle (b :: bs) || strHasSub needle bs

/-- JS `hay.includes(needle)` on strings. -/
def containsSubstr (hay needle : String) : Bool :=
  strHasSub needle.data hay.data

/-- Character-wise `toLowerCase` on a character list. -/
def lowerStr (s : List Char) : List Char := s.map Char.toLower

/-- JS `s.toLowerCase()` at the string level. -/
def strLower (s : String) : String := ⟨lowerStr s.data⟩

/-- Split on whitespace characters (as JS `split(/\s+/)` does, except that
empty segments are kept here — callers filter on word length anyway). -/
def splitWsAux : List Char → List Char → List (List Char)
  | [], acc => [acc.reverse]
  | c :: cs, acc =>
    if c.isWhitespace then acc.reverse :: splitWsAux cs []
    else splitWsAux cs (c :: acc)

/-- Split a character list at whitespace. -/
def splitWs (s : List Char) : List (List Char) := splitWsAux s []

/-- JS truthiness filter on an optional string: `''` is falsy. -/
def truthyS : Option String → Option String
  | some s => if s = "" then none else some s
  | none => none

/-- JS truthiness filter on an optional number: `0` is falsy. -/
def truthyQ : Option ℚ → Option ℚ
  | some x => if x = 0 then none else some x
  | none => none

/-- JS truthiness filter on an optional integer count: `0` is falsy. -/
def truthyZ : Option ℤ → Option ℤ
  | some n => if n = 0 then none else some n
  | none => none

/-- JS `a || b` on optional strings (null/undefined/`''` fall through). -/
def jsOrS (a b : Option String) : Option String :=
  match truthyS a with
  | some v => some v
  | none => truthyS b

/-- JS `a || b` on optional numbers (`0` falls through). -/
def jsOrQ (a b : Option ℚ) : Option ℚ :=
  match truthyQ a with
  | some v => some v
  | none => truthyQ b

/-- JS `a || b` on optional integer counts (`0` falls through). -/
def jsOrZ (a b : Option ℤ) : Option ℤ :=
  match truthyZ a with
  | some v => some v
  | none => truthyZ b

/-- `high`/`medium`/`low` confidence labels. -/
inductive Confidence
  | high
  | medium
  | low
deriving DecidableEq, Repr

/-- The fields of an adapter's opaque `raw_response` JSON that the
orchestrator route actually reads back: `raw_response?.details?.name` and
`raw_response?.placeId` (both only ever present on the Google result). -/
structure RawResponse where
  detailsName : Option String := none
  placeId : Option String := none
deriving DecidableEq

/-- `ReviewFetchResult` of `src/lib/types.ts` (adapter output). -/
structure ReviewFetchResult where
  channel : Channel
  average_score : Option ℚ
  normalized_score : Option ℚ
  total_reviews : Option ℤ
  url : Option String
  raw_response : Option RawResponse
  confidence : Option Confidence
  error : Option String := none
deriving DecidableEq

/-- An all-null result skeleton for a channel. -/
def emptyResult (c : Channel) : ReviewFetchResult :=
  { channel := c, average_score := none, normalized_score := none,
    total_reviews := none, url := none, raw_response := none,
    confidence := none, error := none }

/-- The worked example of the spec: Google 8.4 over 500 reviews,
TripAdvisor 8.0 over 300, Booking 8.5 over 200, others null. -/
def exampleScores : ChannelScores :=
  { google := some { average_score := some (42/10), normalized_score := some (84/10),
                     total_reviews := some 500, fetched_at := none }
    tripadvisor := some { average_score := some 4, normalized_score := some 8,
                          total_reviews := some 300, fetched_at := none }
    expedia := none
    booking := some { average_score := some (85/10), normalized_score := some (85/10),
                      total_reviews := some 200, fetched_at := none }
    airbnb := none }

/-- `Hotel` row of `src/lib/types.ts`. -/
structure Hotel where
  id : String
  user_id : String
  name : String
  city : Option String
  state : Option String
  website_url : Option String
  google_place_id : Option String
  google_url : Option String
  tripadvisor_url : Option String
  expedia_url : Option String
  booking_url : Option String
  airbnb_url : Option String
  num_keys : Option ℤ
  hotel_type : Option String
  created_at : String
  updated_at : String
deriving DecidableEq

/-- `ReviewSnapshot` row (`review_snapshots` table); `fetched_at` is an epoch
timestamp in milliseconds (the row id, generated by the store, is omitted). -/
structure Snapshot where
  hotel_id : String
  channel : Channel
  average_score : Option ℚ
  normalized_score : Option ℚ
  total_reviews : Option ℤ
  fetched_at : ℤ
  raw_response : Option RawResponse
deriving DecidableEq

deriving instance DecidableEq for Except

/-- Input of one invocation of the fetch route handler (`POST` of
`src/app/api/reviews/fetch/route.ts`): the credential environment, the
authenticated user, the request body, the wall clock, the current contents of
the snapshot store, the hotel-row lookup result, and the behaviour of each
adapter call (a returned result, or a thrown error that the route's
catch-wrappers convert). -/
structure FetchEnv where
  hasGoogleKey : Bool
  hasRapidApiKey : Bool
  user : Option String
  hotel_id : String
  force : Bool
  now : ℤ
  snapshots : List Snapshot
  hotelRow : Option Hotel
  googleCall : Except String ReviewFetchResult
  tripCall : Except String ReviewFetchResult
  bookingCall : Except String ReviewFetchResult
  expediaCall : Except String ReviewFetchResult
  airbnbCall : Except String ReviewFetchResult
deriving DecidableEq

/-- The HTTP-level outcome of the route. -/
inductive FetchResponse
  | noKeys
  | unauthorized
  | notFound
  | cached
  | ok (results : List ReviewFetchResult) (hotel_name : String)
deriving DecidableEq

/-- Observable effects of one route invocation: the response, the adapter
calls performed (channel plus the hotel-name argument passed), the snapshot
store afterwards, and the hotel row afterwards. -/
structure FetchOutcome where
  response : FetchResponse
  calls : List (Channel × String)
  snapshots : List Snapshot
  hotel : Option Hotel
deriving DecidableEq

/-- The cache query: snapshots of this hotel with a non-null average score
fetched within the last 24 hours (`Date.now() - 24*60*60*1000`). -/
def recentRows (e : FetchEnv) : List Snapshot :=
  e.snapshots.filter fun s =>
    s.hotel_id = e.hotel_id ∧ s.average_score.isSome ∧ e.now - 86400000 ≤ s.fetched_at

/-- `makeMissingKeyResult` of the route. -/
def missingKeyResult (c : Channel) (keyName : String) : ReviewFetchResult :=
  { emptyResult c with error := some (keyName ++ " not configured in .env.local") }

/-- The catch-wrapper result the route builds when an adapter call throws. -/
def caughtResult (c : Channel) (msg : String) : ReviewFetchResult :=
  { emptyResult c with error := some msg }

/-- The sequential Google phase: synthesize a missing-key result without
calling the adapter, otherwise call it (recording the call and the name
argument) and catch a thrown error. -/
def googlePhase (e : FetchEnv) (hotel : Hotel) :
    ReviewFetchResult × List (Channel × String) :=
  if e.hasGoogleKey = false then
    (missingKeyResult .google "GOOGLE_PLACES_API_KEY", [])
  else
    match e.googleCall with
    | .ok r => (r, [(.google, hotel.name)])
    | .error m => (caughtResult .google m, [(.google, hotel.name)])

/-- `googleResult.raw_response?.details?.name`, with JS truthiness. -/
def googleDetailsName (r : ReviewFetchResult) : Option String :=
  truthyS (r.raw_response.bind fun raw => raw.detailsName)

/-- The resolved name handed to the four parallel adapters: Google's details
name when present, else the stored hotel name. -/
def resolvedNameOf (r : ReviewFetchResult) (hotel : Hotel) : String :=
  (googleDetailsName r).getD hotel.name

/-- The hotel-name persistence step of the Google phase: overwrite the stored
name with the resolved details name when it differs. -/
def nameUpdatedHotel (r : ReviewFetchResult) (hotel : Hotel) : Hotel :=
  match googleDetailsName r with
  | some n => if n ≠ hotel.name then { hotel with name := n } else hotel
  | none => hotel

/-- One entry of the parallel phase: missing-key synthesis, or a call (with
the resolved name) whose thrown errors are caught into an error result. -/
def parallelOne (e : FetchEnv) (c : Channel) (call : Except String ReviewFetchResult)
    (resolvedName : String) : ReviewFetchResult × List (Channel × String) :=
  if e.hasRapidApiKey = false then
    (missingKeyResult c "RAPIDAPI_KEY", [])
  else
    match call with
    | .ok r => (r, [(c, resolvedName)])
    | .error m => (caughtResult c m, [(c, resolvedName)])

/-- `result.error?.includes('not configured')`. -/
def hasNotConfigured : Option String → Bool
  | some s => containsSubstr s "not configured"
  | none => false

/-- The persistence guard of the route:
`result.average_score !== null || !result.error?.includes('not configured')`. -/
def shouldPersist (r : ReviewFetchResult) : Bool :=
  r.average_score.isSome || !(hasNotConfigured r.error)

/-- The snapshot row inserted for a persisted channel result. -/
def toSnapshot (e : FetchEnv) (r : ReviewFetchResult) : Snapshot :=
  { hotel_id := e.hotel_id, channel := r.channel,
    average_score := r.average_score, normalized_score := r.normalized_score,
    total_reviews := r.total_reviews, fetched_at := e.now,
    raw_response := r.raw_response }

/-- The per-result hotel URL/identifier update of the persistence loop.
`orig` is the hotel row as fetched at the start of the request (the code
closes over it when checking `!hotel.google_place_id`). -/
def applyUrlUpdate (orig : Hotel) (h : Hotel) (r : ReviewFetchResult) : Hotel :=
  match r.channel with
  | .google =>
    let h1 :=
      match truthyS (r.raw_response.bind fun raw => raw.placeId) with
      | some pid =>
        if truthyS orig.google_place_id = none then
          { h with google_place_id := some pid }
        else h
      | none => h
    match truthyS r.url with
    | some u => { h1 with google_url := some u }
    | none => h1
  | .tripadvisor =>
    match truthyS r.url with
    | some u => { h with tripadvisor_url := some u }
    | none => h
  | .booking =>
    match truthyS r.url with
    | some u => { h with booking_url := some u }
    | none => h
  | .expedia =>
    match truthyS r.url with
    | some u => { h with expedia_url := some u }
    | none => h
  | .airbnb =>
    match truthyS r.url with
    | some u => { h with airbnb_url := some u }
    | none => h

/-- The five per-channel results of a full fetch: Google first, then the four
parallel channels invoked with the resolved name. -/
def fetchResults (e : FetchEnv) (hotel : Hotel) : List ReviewFetchResult :=
  let g := (googlePhase e hotel).1
  let rn := resolvedNameOf g hotel
  [g, (parallelOne e .tripadvisor e.tripCall rn).1,
   (parallelOne e .booking e.bookingCall rn).1,
   (parallelOne e .expedia e.expediaCall rn).1,
   (parallelOne e .airbnb e.airbnbCall rn).1]

/-- The adapter calls performed by a full fetch, in invocation order. -/
def fetchCalls (e : FetchEnv) (hotel : Hotel) : List (Channel × String) :=
  let gp := googlePhase e hotel
  let rn := resolvedNameOf gp.1 hotel
  gp.2 ++ (parallelOne e .tripadvisor e.tripCall rn).2 ++
    (parallelOne e .booking e.bookingCall rn).2 ++
    (parallelOne e .expedia e.expediaCall rn).2 ++
    (parallelOne e .airbnb e.airbnbCall rn).2

/-- The hotel row after the Google-phase name persistence and the
persistence-loop URL updates. -/
def finalHotelOf (e : FetchEnv) (hotel : Hotel) : Hotel :=
  (fetchResults e hotel).foldl (applyUrlUpdate hotel)
    (nameUpdatedHotel (googlePhase e hotel).1 hotel)

/-- The fetch route handler (`POST` of `src/app/api/reviews/fetch/route.ts`):
pre-flight key check, auth check, hotel lookup, 24-hour cache check
(skippable via `force`), Google phase, parallel phase, snapshot persistence
and hotel URL updates.  A well-formed request body (`hotel_id` present) is
assumed. -/
def post (e : FetchEnv) : FetchOutcome :=
  if e.hasGoogleKey = false ∧ e.hasRapidApiKey = false then
    { response := .noKeys, calls := [], snapshots := e.snapshots, hotel := e.hotelRow }
  else
    match e.user with
    | none =>
      { response := .unauthorized, calls := [], snapshots := e.snapshots,
        hotel := e.hotelRow }
    | some _ =>
      match e.hotelRow with
      | none =>
        { response := .notFound, calls := [], snapshots := e.snapshots, hotel := none }
      | some hotel =>
        if e.force = false ∧ 3 ≤ (recentRows e).length then
          { response := .cached, calls := [], snapshots := e.snapshots,
            hotel := some hotel }
        else
          let results := fetchResults e hotel
          { response := .ok results (resolvedNameOf (googlePhase e hotel).1 hotel),
            calls := fetchCalls e hotel,
            snapshots := e.snapshots ++ (results.filter shouldPersist).map (toSnapshot e),
            hotel := some (finalHotelOf e hotel) }

/-- An adapter call outcome whose result (if any) is tagged with the channel
it was invoked for — every real adapter constructs its result this way. -/
def callChannelOk (c : Channel) : Except String ReviewFetchResult → Prop
  | .ok r => r.channel = c
  | .error _ => True

/-- A Google result counting as failed for the orchestrator: a thrown error,
or an error-tagged result carrying no raw payload (as every error path of
`fetchGoogleReviews` produces). -/
def googleFailed : Except String ReviewFetchResult → Prop
  | .error _ => True
  | .ok r => r.error.isSome = true ∧ r.raw_response = none

/-- Channel `c` has a cache-qualifying snapshot: right hotel, non-null
average score, fetched within the last 24 hours. -/
def freshSnapshotFor (e : FetchEnv) (c : Channel) : Prop :=
  ∃ s ∈ e.snapshots, s.channel = c ∧ s.hotel_id = e.hotel_id ∧
    s.average_score.isSome = true ∧ e.now - 86400000 ≤ s.fetched_at

/-- Number of snapshot rows of a given channel. -/
def countChannel (c : Channel) (l : List Snapshot) : ℕ :=
  (l.filter fun s => s.channel = c).length

/-- The stop-word set of the Airbnb adapter's `isNameMatch`
(`src/lib/api-clients/airbnb.ts`). -/
def stopWords : List (List Char) :=
  ["the".data, "hotel".data, "resort".data, "inn".data, "suites".data,
   "suite".data, "by".data, "at".data, "and".data, "of".data, "a".data,
   "an".data, "in".data, "on".data, "to".data, "for".data, "los".data,
   "las".data, "san".data, "santa".data]

/-- `isNameMatch` of the Airbnb adapter: lowercase the hotel name, split on
whitespace, keep words longer than 2 characters that are not stop words, and
require at least one kept word to occur inside the lowercased listing name. -/
def isNameMatch (hotelName listingName : String) : Bool :=
  let hotelWords := (splitWs (lowerStr hotelName.data)).filter
    fun w => 2 < w.length && !(stopWords.contains w)
  let listingLower := lowerStr listingName.data
  let matchingWords := hotelWords.filter fun w => strHasSub w listingLower
  1 ≤ matchingWords.length

/-- One raw entry of the Airbnb `/search-location` results array, restricted
to the duck-typed fields the adapter probes. -/
structure AirbnbRaw where
  id : Option String := none
  listing_id : Option String := none
  name : Option String := none
  city : Option String := none
  rating : Option ℚ := none
  avgRating : Option ℚ := none
  reviewsCount : Option ℤ := none
  reviews_count : Option ℤ := none
  url : Option String := none
deriving DecidableEq

/-- The `AirbnbSearchResult` the adapter assembles from the matched entry. -/
structure AirbnbFound where
  id : String
  name : Option String
  rating : Option ℚ
  reviewsCount : Option ℤ
  url : Option String
deriving DecidableEq

/-- `searchAirbnb` match selection: the first listing passing `isNameMatch`
is accepted (`results.find(...)`); with no match the adapter returns null
rather than falling back to `results[0]`. -/
def searchAirbnbModel (hotelName : String) (results : List AirbnbRaw) :
    Option AirbnbFound :=
  match results with
  | [] => none
  | _ =>
    match results.find? (fun r => isNameMatch hotelName (r.name.getD "")) with
    | none => none
    | some matched =>
      some { id := (jsOrS matched.id matched.listing_id).getD ""
             name := matched.name
             rating := jsOrQ matched.rating matched.avgRating
             reviewsCount := jsOrZ matched.reviewsCount matched.reviews_count
             url := jsOrS matched.url
               (match truthyS matched.id with
                | some i => some ("https://www.airbnb.com/rooms/" ++ i)
                | none => none) }

/-- Output of `getAirbnbReviews` (the `/reviews` endpoint digest): the
aggregate rating (or computed sample mean) and the review count. -/
structure AirbnbReviewsData where
  rating : Option ℚ
  count : Option ℤ
deriving DecidableEq

/-- The adapter's not-found message. -/
def airbnbNotFoundMsg : String :=
  "No matching Airbnb listing found. Most traditional hotels do not list on Airbnb."

/-- `fetchAirbnbReviews` of the Airbnb adapter, with the two upstream
responses (search results array, reviews digest) as explicit inputs; the raw
JSON payload stored in `raw_response` is abstracted away. -/
def fetchAirbnbReviewsModel (hotelName : String) (results : List AirbnbRaw)
    (reviewData : AirbnbReviewsData) : ReviewFetchResult :=
  match searchAirbnbModel hotelName results with
  | none => { emptyResult .airbnb with error := some airbnbNotFoundMsg }
  | some found =>
    if found.id = "" then { emptyResult .airbnb with error := some airbnbNotFoundMsg }
    else
      let url := some ((truthyS found.url).getD ("https://www.airbnb.com/rooms/" ++ found.id))
      match truthyQ found.rating with
      | some r =>
        { emptyResult .airbnb with
          average_score := some r
          normalized_score := some (normalizeScore r .airbnb)
          total_reviews := truthyZ found.reviewsCount
          url := url
          confidence := some .medium }
      | none =>
        match truthyQ reviewData.rating with
        | some r2 =>
          { emptyResult .airbnb with
            average_score := some r2
            normalized_score := some (normalizeScore r2 .airbnb)
            total_reviews := reviewData.count
            url := url
            confidence := some .medium }
        | none =>
          { emptyResult .airbnb with
            url := url
            confidence := some .low
            error := some "Airbnb listing found but no review data available" }

/-- The score-assembly tail of `fetchBookingReviews`
(`src/lib/api-clients/booking.ts`), after a successful search: given the
search confidence, the (parsed) `average_score` of the first review item, the
review count (`details.review_nr || reviews.count || 0`), and the built hotel
URL.  The first review's hotel-level average is on the internal 0–4 scale and
is multiplied by 2.5. -/
def fetchBookingCore (confidence : Confidence) (firstAvgScore : Option ℚ)
    (reviewCount : ℤ) (hotelUrl : Option String) : ReviewFetchResult :=
  let bookingScore : ℚ :=
    match truthyQ firstAvgScore with
    | some raw => raw * (5/2)
    | none => 0
  if 0 < bookingScore then
    { emptyResult .booking with
      average_score := some (round1 bookingScore)
      normalized_score := some (normalizeScore bookingScore .booking)
      total_reviews := truthyZ (some reviewCount)
      url := hotelUrl
      confidence := some confidence }
  else
    { emptyResult .booking with
      error := some "No rating data available on Booking.com" }

/-- Case-insensitive substring containment in either direction — the shared
name-match test of the Google, TripAdvisor, Booking and Expedia adapters. -/
def substrEitherCI (a b : String) : Bool :=
  containsSubstr (strLower a) (strLower b) || containsSubstr (strLower b) (strLower a)

/-- The confidence rule as the spec words it: `high` on a name match, else
`medium` when the number of candidates is at most the channel's threshold,
else `low`. -/
def specConfidence (matched : Bool) (numCandidates threshold : ℕ) : Confidence :=
  if matched then .high else if numCandidates ≤ threshold then .medium else .low

/-- A Google Places `findplacefromtext` candidate. -/
structure GCand where
  place_id : String
  name : String
deriving DecidableEq

/-- The candidate pick and confidence assignment of `findGooglePlace`
(`src/lib/api-clients/google-places.ts`): first candidate; `high` on
equality or substring containment either way, `medium` when exactly one
candidate was returned, else `low`. -/
def findGooglePlaceConfidence (hotelName : String) (candidates : List GCand) :
    Option (String × Confidence) :=
  match candidates with
  | [] => none
  | candidate :: _ =>
    let nameLower := strLower hotelName
    let candidateLower := strLower candidate.name
    let confidence : Confidence :=
      if candidateLower = nameLower || containsSubstr candidateLower nameLower
          || containsSubstr nameLower candidateLower then .high
      else if candidates.length = 1 then .medium
      else .low
    some (candidate.place_id, confidence)

/-- A TripAdvisor auto-complete result, restricted to the fields the search
uses (`locationId` stands for the already-extracted
`detailsV2.locationId?.toString() || documentId?.replace('loc;','')`). -/
structure TACand where
  locationId : Option String := none
  placeType : Option String := none
  name : Option String := none
deriving DecidableEq

/-- The ACCOMMODATION-filtered pool `searchTripAdvisor` scores against. -/
def taSearchResults (results : List TACand) : List TACand :=
  let hotelResults := results.filter fun r => r.placeType = some "ACCOMMODATION"
  if 0 < hotelResults.length then hotelResults else results

/-- The candidate pick and confidence assignment of `searchTripAdvisor`
(`src/lib/api-clients/tripadvisor.ts`): prefer ACCOMMODATION results, take
the first, `high` on substring containment either way, `medium` when the
scored pool has at most 3 entries, else `low`. -/
def searchTripAdvisorModel (hotelName : String) (results : List TACand) :
    Option (String × Confidence) :=
  match results with
  | [] => none
  | _ =>
    match taSearchResults results with
    | [] => none
    | first :: rest =>
      match truthyS first.locationId with
      | none => none
      | some locationId =>
        let nameLower := strLower hotelName
        let resultName := strLower (first.name.getD "")
        let confidence : Confidence :=
          if containsSubstr resultName nameLower || containsSubstr nameLower resultName
          then .high
          else if (first :: rest).length ≤ 3 then .medium
          else .low
        some (locationId, confidence)

/-- A Booking.com `searchDestination` result entry, restricted to the probed
fields (`rtype` is the JSON field `type`; id fields stand for the stringified
`dest_id`/`hotel_id`/`id`). -/
structure BCand where
  search_type : Option String := none
  dest_type : Option String := none
  rtype : Option String := none
  dest_id : Option String := none
  hotel_id : Option String := none
  idf : Option String := none
  name : Option String := none
  label : Option String := none
deriving DecidableEq

/-- The hotel-typed filter of `searchBooking`. -/
def bkHotelResults (results : List BCand) : List BCand :=
  results.filter fun r =>
    r.search_type = some "hotel" || r.dest_type = some "hotel" || r.rtype = some "ho"

/-- The candidate pick and confidence assignment of `searchBooking`
(`src/lib/api-clients/booking.ts`): prefer hotel-typed results (falling back
to `results[0]`), id from `dest_id || hotel_id || id`, `high` on substring
containment either way against `name || label || ''`, `medium` when at most
3 results total, else `low`. -/
def searchBookingModel (hotelName : String) (results : List BCand) :
    Option (String × Confidence) :=
  match results with
  | [] => none
  | r0 :: _ =>
    let first := (bkHotelResults results).headD r0
    match jsOrS first.dest_id (jsOrS first.hotel_id first.idf) with
    | none => none
    | some hotelId =>
      let nameLower := strLower hotelName
      let resultName := strLower ((jsOrS first.name first.label).getD "")
      let confidence : Confidence :=
        if containsSubstr resultName nameLower || containsSubstr nameLower resultName
        then .high
        else if results.length ≤ 3 then .medium
        else .low
      some (hotelId, confidence)

/-- An Expedia `/v2/regions` result entry, restricted to the probed fields
(`atType` is the JSON field `@type`, `rtype` the field `type`; the name
fields are the `regionNames` members). -/
structure ECand where
  atType : Option String := none
  rtype : Option String := none
  hotelIdf : Option String := none
  gaiaId : Option String := none
  regionId : Option String := none
  primaryDisplayName : Option String := none
  shortName : Option String := none
  fullName : Option String := none
deriving DecidableEq

/-- The hotel-typed filter of `searchExpedia`. -/
def exHotelResults (results : List ECand) : List ECand :=
  results.filter fun r =>
    r.atType = some "gaiaHotelResult" || r.rtype = some "HOTEL"

/-- The candidate pick and confidence assignment of `searchExpedia`
(`src/lib/api-clients/expedia.ts`): prefer hotel-typed results (falling back
to `results[0]`), id from `hotelId || gaiaId || regionId`, `high` on
substring containment either way against
`primaryDisplayName || shortName || fullName || ''`, `medium` when a
hotel-typed result exists and at most 5 results total, else `low`. -/
def searchExpediaModel (hotelName : String) (results : List ECand) :
    Option (String × Confidence) :=
  match results with
  | [] => none
  | r0 :: _ =>
    let first := (exHotelResults results).headD r0
    match jsOrS first.hotelIdf (jsOrS first.gaiaId first.regionId) with
    | none => none
    | some hotelId =>
      let nameLower := strLower hotelName
      let resultName :=
        strLower ((jsOrS first.primaryDisplayName (jsOrS first.shortName first.fullName)).getD "")
      let confidence : Confidence :=
        if containsSubstr resultName nameLower || containsSubstr nameLower resultName
        then .high
        else if 0 < (exHotelResults results).length ∧ results.length ≤ 5 then .medium
        else .low
      some (hotelId, confidence)

/-- A candidate listing whose name shares the significant tokens
"grand"/"plaza" with "The Grand Plaza Hotel". -/
def cozyStudio : AirbnbRaw :=
  { id := some "123", name := some "Cozy Studio near Grand Plaza",
    rating := some 5, reviewsCount := some 27 }

/-- A candidate listing sharing no significant token with
"The Grand Plaza Hotel". -/
def downtownLoft : AirbnbRaw :=
  { id := some "77", name := some "Downtown Loft", rating := some 5 }

/-- An empty reviews-endpoint digest. -/
def noReviewData : AirbnbReviewsData := { rating := none, count := none }

/-- A concrete hotel row for the orchestrator examples. -/
def hotelA : Hotel :=
  { id := "h1", user_id := "u1", name := "Grand Plaza",
    city := some "Springfield", state := none, website_url := none,
    google_place_id := none, google_url := none, tripadvisor_url := none,
    expedia_url := none, booking_url := none, airbnb_url := none,
    num_keys := none, hotel_type := none, created_at := "t0", updated_at := "t0" }

/-- A snapshot of `hotelA` fetched one hour before `now = 1003600000`. -/
def freshSnap (c : Channel) : Snapshot :=
  { hotel_id := "h1", channel := c, average_score := some 9,
    normalized_score := some 9, total_reviews := some 10,
    fetched_at := 1000000000, raw_response := none }

/-- A fully-configured, non-forced invocation with three one-hour-old
snapshots on distinct channels. -/
def envCached : FetchEnv :=
  { hasGoogleKey := true, hasRapidApiKey := true, user := some "u1",
    hotel_id := "h1", force := false, now := 1003600000,
    snapshots := [freshSnap .google, freshSnap .tripadvisor, freshSnap .booking],
    hotelRow := some hotelA,
    googleCall := .error "network down", tripCall := .error "network down",
    bookingCall := .error "network down", expediaCall := .error "network down",
    airbnbCall := .error "network down" }

/-- The same invocation with `force = true`. -/
def envForced : FetchEnv := { envCached with force := true }

/-- The five channels in the route's invocation order (Google first, then
the parallel pushes: TripAdvisor, Booking, Expedia, Airbnb). -/
def fetchOrder : List Channel := [.google, .tripadvisor, .booking, .expedia, .airbnb]

/-- Agreement on every hotel field other than the per-channel URL/identifier
fields (`google_place_id` and the five `*_url` fields). -/
def urlFrameEq (a b : Hotel) : Prop :=
  a.id = b.id ∧ a.user_id = b.user_id ∧ a.name = b.name ∧ a.city = b.city ∧
  a.state = b.state ∧ a.website_url = b.website_url ∧ a.num_keys = b.num_keys ∧
  a.hotel_type = b.hotel_type ∧ a.created_at = b.created_at ∧
  a.updated_at = b.updated_at

/-- A successful Google result whose search confidence is `low` but which
still carries a resolved details name distinct from the stored one. -/
def googleOkLowConf : ReviewFetchResult :=
  { channel := .google, average_score := some (9/2), normalized_score := some 9,
    total_reviews := some 120, url := some "https://maps.google.com/x",
    raw_response := some { detailsName := some "Grand Plaza Hotel Santa Monica",
                           placeId := some "pid1" },
    confidence := some .low, error := none }

/-- The forced invocation whose Google call succeeds with low confidence. -/
def envLowConf : FetchEnv := { envForced with googleCall := .ok googleOkLowConf }

/-- An Airbnb candidate whose name equals the queried hotel name exactly. -/
def grandPlazaListing : AirbnbRaw :=
  { id := some "9", name := some "Grand Plaza", rating := some 5,
    reviewsCount := some 12 }

theorem jsRound_intCast (n : ℤ) : jsRound (n : ℚ) = n := by
  unfold jsRound
  rw [add_comm, Int.floor_add_int]
  norm_num

theorem round2_round2 (x : ℚ) : round2 (round2 x) = round2 x := by
  unfold round2
  rw [div_mul_cancel₀ _ (by norm_num : (100:ℚ) ≠ 0), jsRound_intCast]

theorem wStep_foldl (scores : ChannelScores) (l : List Channel) (a b : ℚ) :
    l.foldl (wStep scores) (a, b) =
      (a + ((l.filter (qualifies scores)).map
              (fun c => nsOf scores c * trOf scores c)).sum,
       b + ((l.filter (qualifies scores)).map (fun c => trOf scores c)).sum) := by
  induction l generalizing a b with
  | nil => simp
  | cons c t ih =>
    rcases hg : scores.get c with _ | s
    · have hq : qualifies scores c = false := by simp [qualifies, hg]
      simp only [List.foldl_cons, List.filter_cons, hq]
      rw [show wStep scores (a, b) c = (a, b) by simp [wStep, hg]]
      simpa using ih a b
    · rcases hns : s.normalized_score with _ | ns
      · have hq : qualifies scores c = false := by simp [qualifies, hg, hns]
        simp only [List.foldl_cons, List.filter_cons, hq]
        rw [show wStep scores (a, b) c = (a, b) by simp [wStep, hg, hns]]
        simpa using ih a b
      · rcases htr : s.total_reviews with _ | tr
        · have hq : qualifies scores c = false := by simp [qualifies, hg, hns, htr]
          simp only [List.foldl_cons, List.filter_cons, hq]
          rw [show wStep scores (a, b) c = (a, b) by simp [wStep, hg, hns, htr]]
          simpa using ih a b
        · by_cases hpos : 0 < tr
          · have hq : qualifies scores c = true := by
              simp [qualifies, hg, hns, htr, hpos]
            have hstep : wStep scores (a, b) c = (a + ns * (tr : ℚ), b + (tr : ℚ)) := by
              simp [wStep, hg, hns, htr, hpos]
            have hn : nsOf scores c = ns := by simp [nsOf, hg, hns]
            have ht : trOf scores c = (tr : ℚ) := by simp [trOf, hg, htr]
            simp only [List.foldl_cons, List.filter_cons, hq, if_pos, hstep, ih,
              List.map_cons, List.sum_cons, hn, ht]
            simp [add_assoc]
          · have hq : qualifies scores c = false := by
              simp [qualifies, hg, hns, htr, hpos]
            simp only [List.foldl_cons, List.filter_cons, hq]
            rw [show wStep scores (a, b) c = (a, b) by simp [wStep, hg, hns, htr, hpos]]
            simpa using ih a b

/-- C1: `calculateWeightedAverage` accumulates a channel exactly when it has a
non-null normalized score and a non-null, strictly positive review count; it
returns `null` when the accumulated weight is zero and otherwise
`sum / weight` rounded to 2 decimals; on the Google=8.4×500,
TripAdvisor=8.0×300, Booking=8.5×200 example the result is 8.3. -/
theorem weightedAverage_spec :
    (∀ scores : ChannelScores,
      (∀ c : Channel, qualifies scores c = true ↔
        ∃ s, scores.get c = some s ∧ (∃ ns, s.normalized_score = some ns) ∧
          ∃ tr, s.total_reviews = some tr ∧ 0 < tr) ∧
      calculateWeightedAverage scores =
        (if ((allChannels.filter (qualifies scores)).map (fun c => trOf scores c)).sum = 0
         then none
         else some (round2
           (((allChannels.filter (qualifies scores)).map
               (fun c => nsOf scores c * trOf scores c)).sum /
            ((allChannels.filter (qualifies scores)).map (fun c => trOf scores c)).sum))))
    ∧ calculateWeightedAverage exampleScores = some (83/10) := by
  refine ⟨fun scores => ⟨fun c => ?_, ?_⟩, ?_⟩
  · constructor
    · intro h
      rcases hg : scores.get c with _ | s
      · simp [qualifies, hg] at h
      · rcases hns : s.normalized_score with _ | ns
        · simp [qualifies, hg, hns] at h
        · rcases htr : s.total_reviews with _ | tr
          · simp [qualifies, hg, hns, htr] at h
          · simp only [qualifies, hg, hns, htr, decide_eq_true_eq] at h
            exact ⟨s, rfl, ⟨ns, hns⟩, tr, htr, h⟩
    · rintro ⟨s, hg, ⟨ns, hns⟩, tr, htr, hpos⟩
      simp [qualifies, hg, hns, htr, hpos]
  · unfold calculateWeightedAverage
    rw [wStep_foldl]
    simp
  · unfold calculateWeightedAverage
    rw [wStep_foldl]
    norm_num [allChannels, qualifies, exampleScores, ChannelScores.get, nsOf, trOf,
      round2, jsRound]

/-- C2: `normalizeScore` multiplies by the fixed per-channel factor
(google/tripadvisor/airbnb ×2, expedia/booking ×1) and rounds to 2 decimals;
an Expedia 8.7 normalizes to exactly 8.7; re-normalizing under a factor-1
channel is idempotent. -/
theorem normalizeScore_spec :
    (∀ raw : ℚ,
      normalizeScore raw .google = round2 (raw * 2) ∧
      normalizeScore raw .tripadvisor = round2 (raw * 2) ∧
      normalizeScore raw .airbnb = round2 (raw * 2) ∧
      normalizeScore raw .expedia = round2 (raw * 1) ∧
      normalizeScore raw .booking = round2 (raw * 1))
    ∧ normalizeScore (87/10) .expedia = 87/10
    ∧ (∀ (raw : ℚ) (c : Channel), NORMALIZATION_FACTORS c = 1 →
        normalizeScore (normalizeScore raw c) c = normalizeScore raw c) := by
  refine ⟨fun raw => ⟨rfl, rfl, rfl, rfl, rfl⟩, ?_, fun raw c h => ?_⟩
  · norm_num [normalizeScore, NORMALIZATION_FACTORS, round2, jsRound]
  · simp only [normalizeScore, h, mul_one]
    exact round2_round2 raw

/-- Witness for C2's idempotence hypothesis at the Expedia channel. -/
theorem normalizeScore_spec_witness :
    normalizeScore (normalizeScore (87/10) .expedia) .expedia =
      normalizeScore (87/10) .expedia :=
  normalizeScore_spec.2.2 (87/10) .expedia (by norm_num [NORMALIZATION_FACTORS])

/-- C4: the Airbnb adapter accepts a candidate only if it passes the strict
stop-word-filtered token-overlap test `isNameMatch`; when no candidate
passes, the fetch reports not-found with no score, rather than falling back;
"Cozy Studio near Grand Plaza" is accepted for "The Grand Plaza Hotel"
(tokens "grand"/"plaza") while a sole candidate "Downtown Loft" yields
not-found. -/
theorem airbnb_strict_match_spec :
    (∀ (hotelName : String) (results : List AirbnbRaw) (found : AirbnbFound),
      searchAirbnbModel hotelName results = some found →
      ∃ m ∈ results, isNameMatch hotelName (m.name.getD "") = true ∧ found.name = m.name)
    ∧ (∀ (hotelName : String) (results : List AirbnbRaw) (d : AirbnbReviewsData),
      (∀ r ∈ results, isNameMatch hotelName (r.name.getD "") = false) →
      (fetchAirbnbReviewsModel hotelName results d).error = some airbnbNotFoundMsg ∧
      (fetchAirbnbReviewsModel hotelName results d).average_score = none)
    ∧ isNameMatch "The Grand Plaza Hotel" "Cozy Studio near Grand Plaza" = true
    ∧ (fetchAirbnbReviewsModel "The Grand Plaza Hotel" [cozyStudio] noReviewData).error = none
    ∧ (fetchAirbnbReviewsModel "The Grand Plaza Hotel" [cozyStudio] noReviewData).average_score
        = some 5
    ∧ (fetchAirbnbReviewsModel "The Grand Plaza Hotel" [downtownLoft] noReviewData).error
        = some airbnbNotFoundMsg := by
  refine ⟨?_, ?_, by decide, ?_, ?_, ?_⟩
  · intro hotelName results found h
    cases results with
    | nil => simp [searchAirbnbModel] at h
    | cons r0 rest =>
      rcases hf : (r0 :: rest).find? (fun r => isNameMatch hotelName (r.name.getD ""))
        with _ | m
      · simp [searchAirbnbModel, hf] at h
      · have hp := List.find?_some hf
        have hmem : m ∈ r0 :: rest := List.mem_of_find?_eq_some hf
        refine ⟨m, hmem, hp, ?_⟩
        simp only [searchAirbnbModel, hf, Option.some.injEq] at h
        rw [← h]

  · intro hotelName results d hnone
    have hf : results.find? (fun r => isNameMatch hotelName (r.name.getD "")) = none :=
      List.find?_eq_none.mpr (by simpa using hnone)
    cases results with
    | nil => simp [fetchAirbnbReviewsModel, searchAirbnbModel, emptyResult]
    | cons r0 rest =>
      simp [fetchAirbnbReviewsModel, searchAirbnbModel, hf, emptyResult]
  · have : searchAirbnbModel "The Grand Plaza Hotel" [cozyStudio] =
        some { id := "123", name := some "Cozy Studio near Grand Plaza",
               rating := some 5, reviewsCount := some 27,
               url := some "https://www.airbnb.com/rooms/123" } := by decide
    simp +decide [fetchAirbnbReviewsModel, this, truthyQ, emptyResult]
  · have : searchAirbnbModel "The Grand Plaza Hotel" [cozyStudio] =
        some { id := "123", name := some "Cozy Studio near Grand Plaza",
               rating := some 5, reviewsCount := some 27,
               url := some "https://www.airbnb.com/rooms/123" } := by decide
    simp +decide [fetchAirbnbReviewsModel, this, truthyQ, emptyResult]
  · have : searchAirbnbModel "The Grand Plaza Hotel" [downtownLoft] = none := by decide
    simp [fetchAirbnbReviewsModel, this, emptyResult]

/-- Witness for C4's no-candidate-passes hypothesis, at the single candidate
"Downtown Loft". -/
theorem airbnb_strict_match_spec_witness :
    (fetchAirbnbReviewsModel "The Grand Plaza Hotel" [downtownLoft] noReviewData).error
      = some airbnbNotFoundMsg ∧
    (fetchAirbnbReviewsModel "The Grand Plaza Hotel" [downtownLoft] noReviewData).average_score
      = none :=
  airbnb_strict_match_spec.2.1 "The Grand Plaza Hotel" [downtownLoft] noReviewData
    (by decide)

theorem parallelOne_calls (e : FetchEnv) (c : Channel)
    (call : Except String ReviewFetchResult) (rn : String)
    (hr : e.hasRapidApiKey = true) : (parallelOne e c call rn).2 = [(c, rn)] := by
  cases call <;> simp [parallelOne, hr]

theorem parallelOne_channel (e : FetchEnv) (c : Channel)
    (call : Except String ReviewFetchResult) (rn : String)
    (hok : callChannelOk c call) : (parallelOne e c call rn).1.channel = c := by
  cases call with
  | error m => by_cases h : e.hasRapidApiKey = false <;>
      simp [parallelOne, h, caughtResult, missingKeyResult, emptyResult]
  | ok r =>
    have hc : r.channel = c := hok
    by_cases h : e.hasRapidApiKey = false <;>
      simp [parallelOne, h, missingKeyResult, emptyResult, hc]

theorem googlePhase_calls (e : FetchEnv) (hotel : Hotel)
    (hg : e.hasGoogleKey = true) :
    (googlePhase e hotel).2 = [(.google, hotel.name)] := by
  rcases hge : e.googleCall with m | r <;> simp [googlePhase, hg, hge]

theorem googlePhase_channel (e : FetchEnv) (hotel : Hotel)
    (hok : callChannelOk .google e.googleCall) :
    (googlePhase e hotel).1.channel = .google := by
  rcases hge : e.googleCall with m | r
  · by_cases h : e.hasGoogleKey = false <;>
      simp [googlePhase, h, hge, caughtResult, missingKeyResult, emptyResult]
  · rw [hge] at hok
    have hc : r.channel = .google := hok
    by_cases h : e.hasGoogleKey = false <;>
      simp [googlePhase, h, hge, missingKeyResult, emptyResult, hc]

theorem googleFailed_resolvedName (e : FetchEnv) (hotel : Hotel)
    (hfail : googleFailed e.googleCall) :
    resolvedNameOf (googlePhase e hotel).1 hotel = hotel.name := by
  rcases hge : e.googleCall with m | r
  · by_cases h : e.hasGoogleKey = false <;>
      simp [resolvedNameOf, googleDetailsName, googlePhase, h, hge,
        caughtResult, missingKeyResult, emptyResult, truthyS]
  · rw [hge] at hfail
    obtain ⟨herr, hraw⟩ := hfail
    by_cases h : e.hasGoogleKey = false <;>
      simp [resolvedNameOf, googleDetailsName, googlePhase, h, hge, hraw,
        missingKeyResult, emptyResult, truthyS]

theorem post_fetch_eq (e : FetchEnv) (hotel : Hotel)
    (hkeys : e.hasGoogleKey = true ∨ e.hasRapidApiKey = true)
    (hu : e.user.isSome = true) (hh : e.hotelRow = some hotel)
    (hcache : ¬(e.force = false ∧ 3 ≤ (recentRows e).length)) :
    post e =
      { response := .ok (fetchResults e hotel)
          (resolvedNameOf (googlePhase e hotel).1 hotel),
        calls := fetchCalls e hotel,
        snapshots := e.snapshots ++
          ((fetchResults e hotel).filter shouldPersist).map (toSnapshot e),
        hotel := some (finalHotelOf e hotel) } := by
  obtain ⟨u, hu'⟩ := Option.isSome_iff_exists.mp hu
  have hnk : ¬(e.hasGoogleKey = false ∧ e.hasRapidApiKey = false) := by
    rcases hkeys with h | h <;> simp [h]
  simp only [post, if_neg hnk, hu', hh]
  rw [if_neg hcache]

theorem fetchResults_channels (e : FetchEnv) (hotel : Hotel)
    (hgok : callChannelOk .google e.googleCall)
    (ht : callChannelOk .tripadvisor e.tripCall)
    (hb : callChannelOk .booking e.bookingCall)
    (hx : callChannelOk .expedia e.expediaCall)
    (ha : callChannelOk .airbnb e.airbnbCall) :
    (fetchResults e hotel).map (fun r => r.channel) = fetchOrder := by
  simp only [fetchResults, List.map_cons, List.map_nil, fetchOrder]
  rw [googlePhase_channel e hotel hgok,
    parallelOne_channel e .tripadvisor e.tripCall _ ht,
    parallelOne_channel e .booking e.bookingCall _ hb,
    parallelOne_channel e .expedia e.expediaCall _ hx,
    parallelOne_channel e .airbnb e.airbnbCall _ ha]

/-- C3: in a non-forced invocation, three distinct channels each holding a
non-null-scored snapshot from within the last 24 hours make the route report
a cached result, perform zero adapter calls and write nothing; with
`force = true` the cache check is skipped and all five adapter calls are
performed regardless of snapshot freshness. -/
theorem cache_policy_spec :
    (∀ (e : FetchEnv) (hotel : Hotel) (c1 c2 c3 : Channel),
      (e.hasGoogleKey = true ∨ e.hasRapidApiKey = true) →
      e.user.isSome = true → e.hotelRow = some hotel → e.force = false →
      c1 ≠ c2 → c1 ≠ c3 → c2 ≠ c3 →
      freshSnapshotFor e c1 → freshSnapshotFor e c2 → freshSnapshotFor e c3 →
      (post e).response = .cached ∧ (post e).calls = [] ∧
        (post e).snapshots = e.snapshots)
    ∧ (∀ (e : FetchEnv) (hotel : Hotel),
      e.hasGoogleKey = true → e.hasRapidApiKey = true →
      e.user.isSome = true → e.hotelRow = some hotel → e.force = true →
      (post e).calls.map Prod.fst = fetchOrder) := by
  constructor
  · intro e hotel c1 c2 c3 hkeys hu hh hforce h12 h13 h23 hf1 hf2 hf3
    obtain ⟨s1, hs1m, hs1c, hs1h, hs1a, hs1t⟩ := hf1
    obtain ⟨s2, hs2m, hs2c, hs2h, hs2a, hs2t⟩ := hf2
    obtain ⟨s3, hs3m, hs3c, hs3h, hs3a, hs3t⟩ := hf3
    have hmem1 : s1 ∈ recentRows e := by
      simp only [recentRows, List.mem_filter, decide_eq_true_eq]
      exact ⟨hs1m, hs1h, hs1a, hs1t⟩
    have hmem2 : s2 ∈ recentRows e := by
      simp only [recentRows, List.mem_filter, decide_eq_true_eq]
      exact ⟨hs2m, hs2h, hs2a, hs2t⟩
    have hmem3 : s3 ∈ recentRows e := by
      simp only [recentRows, List.mem_filter, decide_eq_true_eq]
      exact ⟨hs3m, hs3h, hs3a, hs3t⟩
    have hne12 : s1 ≠ s2 := fun h => h12 (by rw [← hs1c, ← hs2c, h])
    have hne13 : s1 ≠ s3 := fun h => h13 (by rw [← hs1c, ← hs3c, h])
    have hne23 : s2 ≠ s3 := fun h => h23 (by rw [← hs2c, ← hs3c, h])
    have hlen : 3 ≤ (recentRows e).length := by
      have hsub : ({s1, s2, s3} : Finset Snapshot) ⊆ (recentRows e).toFinset := by
        intro x hx
        simp only [Finset.mem_insert, Finset.mem_singleton] at hx
        rcases hx with rfl | rfl | rfl
        · simpa [List.mem_toFinset] using hmem1
        · simpa [List.mem_toFinset] using hmem2
        · simpa [List.mem_toFinset] using hmem3
      have hcard : ({s1, s2, s3} : Finset Snapshot).card = 3 :=
        Finset.card_eq_three.mpr ⟨s1, s2, s3, hne12, hne13, hne23, rfl⟩
      calc 3 = ({s1, s2, s3} : Finset Snapshot).card := hcard.symm
        _ ≤ (recentRows e).toFinset.card := Finset.card_le_card hsub
        _ ≤ (recentRows e).length := (recentRows e).toFinset_card_le
    obtain ⟨u, hu'⟩ := Option.isSome_iff_exists.mp hu
    have hnk : ¬(e.hasGoogleKey = false ∧ e.hasRapidApiKey = false) := by
      rcases hkeys with h | h <;> simp [h]
    simp only [post, if_neg hnk, hu', hh]
    rw [if_pos ⟨hforce, hlen⟩]
    exact ⟨rfl, rfl, rfl⟩
  · intro e hotel hg hr hu hh hforce
    obtain ⟨u, hu'⟩ := Option.isSome_iff_exists.mp hu
    have hnk : ¬(e.hasGoogleKey = false ∧ e.hasRapidApiKey = false) := by simp [hg]
    have hcache : ¬(e.force = false ∧ 3 ≤ (recentRows e).length) := by simp [hforce]
    simp only [post, if_neg hnk, hu', hh]
    rw [if_neg hcache]
    simp only [fetchCalls, googlePhase, parallelOne, hg, hr]
    cases e.googleCall <;> cases e.tripCall <;> cases e.bookingCall <;>
      cases e.expediaCall <;> cases e.airbnbCall <;> simp [fetchOrder]

/-- Witness for C3: the concrete cached and forced invocations. -/
theorem cache_policy_spec_witness :
    (post envCached).response = .cached ∧ (post envCached).calls = [] ∧
    (post envForced).calls.map Prod.fst = fetchOrder := by
  have hfresh : ∀ c : Channel, freshSnapshotFor envCached c →
      freshSnapshotFor envCached c := fun _ h => h
  have h1 := cache_policy_spec.1 envCached hotelA .google .tripadvisor .booking
    (Or.inl rfl) rfl rfl rfl (by decide) (by decide) (by decide)
    ⟨freshSnap .google, by simp [envCached], rfl, rfl, rfl, by decide⟩
    ⟨freshSnap .tripadvisor, by simp [envCached], rfl, rfl, rfl, by decide⟩
    ⟨freshSnap .booking, by simp [envCached], rfl, rfl, rfl, by decide⟩
  have h2 := cache_policy_spec.2 envForced hotelA rfl rfl rfl rfl rfl
  exact ⟨h1.1, h1.2.1, h2⟩

/-- C5: when the Google adapter throws or returns an error result, the fetch
does not abort — the four parallel adapters are still invoked, each with the
hotel's pre-existing stored name, and the operation reports a success
response with one result per channel. -/
theorem google_failure_tolerated (e : FetchEnv) (hotel : Hotel)
    (hg : e.hasGoogleKey = true) (hr : e.hasRapidApiKey = true)
    (hu : e.user.isSome = true) (hh : e.hotelRow = some hotel)
    (hcache : ¬(e.force = false ∧ 3 ≤ (recentRows e).length))
    (hfail : googleFailed e.googleCall)
    (hgok : callChannelOk .google e.googleCall)
    (ht : callChannelOk .tripadvisor e.tripCall)
    (hb : callChannelOk .booking e.bookingCall)
    (hx : callChannelOk .expedia e.expediaCall)
    (ha : callChannelOk .airbnb e.airbnbCall) :
    (post e).calls = [(.google, hotel.name), (.tripadvisor, hotel.name),
      (.booking, hotel.name), (.expedia, hotel.name), (.airbnb, hotel.name)]
    ∧ (post e).response = .ok (fetchResults e hotel) hotel.name
    ∧ (fetchResults e hotel).map (fun r => r.channel) = fetchOrder := by
  have hrn := googleFailed_resolvedName e hotel hfail
  have hpost := post_fetch_eq e hotel (Or.inl hg) hu hh hcache
  have hcalls : (post e).calls = fetchCalls e hotel := by rw [hpost]
  have hresp : (post e).response =
      .ok (fetchResults e hotel) (resolvedNameOf (googlePhase e hotel).1 hotel) := by
    rw [hpost]
  refine ⟨?_, by rw [hresp, hrn], fetchResults_channels e hotel hgok ht hb hx ha⟩
  rw [hcalls]
  simp only [fetchCalls]
  rw [googlePhase_calls e hotel hg, hrn,
    parallelOne_calls e .tripadvisor e.tripCall _ hr,
    parallelOne_calls e .booking e.bookingCall _ hr,
    parallelOne_calls e .expedia e.expediaCall _ hr,
    parallelOne_calls e .airbnb e.airbnbCall _ hr]
  rfl

/-- Witness for C5: the forced invocation whose Google call throws. -/
theorem google_failure_tolerated_witness :
    (post envForced).calls = [(.google, hotelA.name), (.tripadvisor, hotelA.name),
      (.booking, hotelA.name), (.expedia, hotelA.name), (.airbnb, hotelA.name)]
    ∧ (post envForced).response = .ok (fetchResults envForced hotelA) hotelA.name
    ∧ (fetchResults envForced hotelA).map (fun r => r.channel) = fetchOrder :=
  google_failure_tolerated envForced hotelA rfl rfl rfl rfl
    (by simp [envForced, envCached]) trivial trivial trivial trivial trivial trivial

/-- C6: the route only ever appends to the snapshot store (never updates or
deletes); on a full fetch it appends exactly the per-channel results passing
the persistence guard — a result is skipped iff it has no score and its error
mentions "not configured" — one result per channel, so per-channel snapshot
counts grow monotonically. -/
theorem snapshot_append_only :
    (∀ e : FetchEnv, ∃ new, (post e).snapshots = e.snapshots ++ new)
    ∧ (∀ (e : FetchEnv) (hotel : Hotel),
      (e.hasGoogleKey = true ∨ e.hasRapidApiKey = true) →
      e.user.isSome = true → e.hotelRow = some hotel →
      ¬(e.force = false ∧ 3 ≤ (recentRows e).length) →
      callChannelOk .google e.googleCall → callChannelOk .tripadvisor e.tripCall →
      callChannelOk .booking e.bookingCall → callChannelOk .expedia e.expediaCall →
      callChannelOk .airbnb e.airbnbCall →
      (post e).snapshots = e.snapshots ++
        ((fetchResults e hotel).filter shouldPersist).map (toSnapshot e)
      ∧ (fetchResults e hotel).map (fun r => r.channel) = fetchOrder
      ∧ (∀ r : ReviewFetchResult, shouldPersist r = false ↔
          (r.average_score = none ∧ hasNotConfigured r.error = true))
      ∧ ∀ c : Channel,
          countChannel c e.snapshots ≤ countChannel c (post e).snapshots) := by
  constructor
  · intro e
    by_cases hk : e.hasGoogleKey = false ∧ e.hasRapidApiKey = false
    · exact ⟨[], by simp [post, if_pos hk]⟩
    · rcases hu : e.user with _ | u
      · exact ⟨[], by simp [post, if_neg hk, hu]⟩
      · rcases hh : e.hotelRow with _ | hotel
        · exact ⟨[], by simp [post, if_neg hk, hu, hh]⟩
        · by_cases hc : e.force = false ∧ 3 ≤ (recentRows e).length
          · exact ⟨[], by simp [post, if_neg hk, hu, hh, if_pos hc]⟩
          · exact ⟨((fetchResults e hotel).filter shouldPersist).map (toSnapshot e),
              by simp [post, if_neg hk, hu, hh, if_neg hc]⟩
  · intro e hotel hkeys hu hh hcache hgok ht hb hx ha
    have hpost := post_fetch_eq e hotel hkeys hu hh hcache
    have hsnap : (post e).snapshots = e.snapshots ++
        ((fetchResults e hotel).filter shouldPersist).map (toSnapshot e) := by
      rw [hpost]
    refine ⟨hsnap, fetchResults_channels e hotel hgok ht hb hx ha, ?_, ?_⟩
    · intro r
      cases havg : r.average_score <;> cases hnc : hasNotConfigured r.error <;>
        simp [shouldPersist, havg, hnc]
    · intro c
      rw [hsnap]
      simp only [countChannel, List.filter_append, List.length_append]
      exact Nat.le_add_right _ _

/-- Witness for C6 at the forced concrete invocation. -/
theorem snapshot_append_only_witness :
    (post envForced).snapshots = envForced.snapshots ++
      ((fetchResults envForced hotelA).filter shouldPersist).map (toSnapshot envForced)
    ∧ ∀ c : Channel,
        countChannel c envForced.snapshots ≤ countChannel c (post envForced).snapshots := by
  have h := snapshot_append_only.2 envForced hotelA (Or.inl rfl) rfl rfl
    (by simp [envForced, envCached]) trivial trivial trivial trivial trivial
  exact ⟨h.1, h.2.2.2⟩

theorem urlFrameEq_refl (a : Hotel) : urlFrameEq a a := by
  unfold urlFrameEq
  exact ⟨rfl, rfl, rfl, rfl, rfl, rfl, rfl, rfl, rfl, rfl⟩

theorem urlFrameEq_trans {a b c : Hotel} (h1 : urlFrameEq a b) (h2 : urlFrameEq b c) :
    urlFrameEq a c := by
  obtain ⟨x1, x2, x3, x4, x5, x6, x7, x8, x9, x10⟩ := h1
  obtain ⟨y1, y2, y3, y4, y5, y6, y7, y8, y9, y10⟩ := h2
  exact ⟨x1.trans y1, x2.trans y2, x3.trans y3, x4.trans y4, x5.trans y5,
    x6.trans y6, x7.trans y7, x8.trans y8, x9.trans y9, x10.trans y10⟩

theorem applyUrlUpdate_frame (orig h : Hotel) (r : ReviewFetchResult) :
    urlFrameEq (applyUrlUpdate orig h r) h := by
  cases hc : r.channel <;>
    rcases hp : truthyS (r.raw_response.bind fun raw => raw.placeId) with _ | pid <;>
    rcases hu : truthyS r.url with _ | u <;>
    by_cases hg : truthyS orig.google_place_id = none <;>
    simp [applyUrlUpdate, hc, hp, hu, hg, urlFrameEq]

theorem foldl_applyUrlUpdate_frame (orig : Hotel) (l : List ReviewFetchResult)
    (h0 : Hotel) : urlFrameEq (l.foldl (applyUrlUpdate orig) h0) h0 := by
  induction l generalizing h0 with
  | nil => exact urlFrameEq_refl h0
  | cons r t ih =>
    exact urlFrameEq_trans (ih (applyUrlUpdate orig h0 r))
      (applyUrlUpdate_frame orig h0 r)

theorem nameUpdatedHotel_frame (r : ReviewFetchResult) (hotel : Hotel) :
    (nameUpdatedHotel r hotel).city = hotel.city ∧
    (nameUpdatedHotel r hotel).id = hotel.id ∧
    (nameUpdatedHotel r hotel).user_id = hotel.user_id ∧
    (nameUpdatedHotel r hotel).state = hotel.state ∧
    (nameUpdatedHotel r hotel).website_url = hotel.website_url ∧
    (nameUpdatedHotel r hotel).num_keys = hotel.num_keys ∧
    (nameUpdatedHotel r hotel).hotel_type = hotel.hotel_type ∧
    (nameUpdatedHotel r hotel).created_at = hotel.created_at ∧
    (nameUpdatedHotel r hotel).updated_at = hotel.updated_at ∧
    (nameUpdatedHotel r hotel).google_place_id = hotel.google_place_id ∧
    (nameUpdatedHotel r hotel).google_url = hotel.google_url ∧
    (nameUpdatedHotel r hotel).tripadvisor_url = hotel.tripadvisor_url ∧
    (nameUpdatedHotel r hotel).expedia_url = hotel.expedia_url ∧
    (nameUpdatedHotel r hotel).booking_url = hotel.booking_url ∧
    (nameUpdatedHotel r hotel).airbnb_url = hotel.airbnb_url := by
  rcases hd : googleDetailsName r with _ | n
  · simp [nameUpdatedHotel, hd]
  · by_cases hne : n ≠ hotel.name <;> simp [nameUpdatedHotel, hd, hne]

theorem nameUpdatedHotel_name (r : ReviewFetchResult) (hotel : Hotel) :
    (nameUpdatedHotel r hotel).name = resolvedNameOf r hotel := by
  rcases hd : googleDetailsName r with _ | n
  · simp [nameUpdatedHotel, resolvedNameOf, hd]
  · by_cases hne : n ≠ hotel.name
    · simp [nameUpdatedHotel, resolvedNameOf, hd, hne]
    · push_neg at hne
      simp [nameUpdatedHotel, resolvedNameOf, hd, hne]

/-- C10: the route never writes the hotel's `city` (nor any field outside
name, `google_place_id` and the five channel URL fields): whatever the
invocation, the resulting hotel row agrees with the original on `city`,
identity, `state`, `website_url`, `num_keys`, `hotel_type` and timestamps. -/
theorem hotel_city_frame (e : FetchEnv) (hotel : Hotel)
    (hh : e.hotelRow = some hotel) :
    ∃ h' : Hotel, (post e).hotel = some h' ∧ h'.city = hotel.city ∧
      h'.id = hotel.id ∧ h'.user_id = hotel.user_id ∧ h'.state = hotel.state ∧
      h'.website_url = hotel.website_url ∧ h'.num_keys = hotel.num_keys ∧
      h'.hotel_type = hotel.hotel_type ∧ h'.created_at = hotel.created_at ∧
      h'.updated_at = hotel.updated_at := by
  by_cases hk : e.hasGoogleKey = false ∧ e.hasRapidApiKey = false
  · exact ⟨hotel, by simp [post, if_pos hk, hh], rfl, rfl, rfl, rfl, rfl, rfl,
      rfl, rfl, rfl⟩
  · rcases hu : e.user with _ | u
    · exact ⟨hotel, by simp [post, if_neg hk, hu, hh], rfl, rfl, rfl, rfl, rfl,
        rfl, rfl, rfl, rfl⟩
    · by_cases hc : e.force = false ∧ 3 ≤ (recentRows e).length
      · exact ⟨hotel, by simp [post, if_neg hk, hu, hh, if_pos hc], rfl, rfl,
          rfl, rfl, rfl, rfl, rfl, rfl, rfl⟩
      · refine ⟨finalHotelOf e hotel, by simp [post, if_neg hk, hu, hh, if_neg hc], ?_⟩
        have hf := foldl_applyUrlUpdate_frame hotel (fetchResults e hotel)
          (nameUpdatedHotel (googlePhase e hotel).1 hotel)
        obtain ⟨f1, f2, f3, f4, f5, f6, f7, f8, f9, f10⟩ := hf
        obtain ⟨n1, n2, n3, n4, n5, n6, n7, n8, n9, _⟩ :=
          nameUpdatedHotel_frame (googlePhase e hotel).1 hotel
        unfold finalHotelOf
        exact ⟨f4.trans n1, f1.trans n2, f2.trans n3, f5.trans n4, f6.trans n5,
          f7.trans n6, f8.trans n7, f9.trans n8, f10.trans n9⟩

/-- Witness for C10 at the concrete cached invocation. -/
theorem hotel_city_frame_witness :
    ∃ h' : Hotel, (post envCached).hotel = some h' ∧ h'.city = hotelA.city ∧
      h'.id = hotelA.id ∧ h'.user_id = hotelA.user_id ∧ h'.state = hotelA.state ∧
      h'.website_url = hotelA.website_url ∧ h'.num_keys = hotelA.num_keys ∧
      h'.hotel_type = hotelA.hotel_type ∧ h'.created_at = hotelA.created_at ∧
      h'.updated_at = hotelA.updated_at :=
  hotel_city_frame envCached hotelA rfl

/-- C8 counterexample: a Google result with confidence `low` whose details
name differs from the stored name still gets persisted as the new hotel name
— the route consults only name distinctness, never the confidence label, so
"name mutation only on a higher-confidence authoritative name" fails. -/
theorem name_mutation_cex :
    ((fetchResults envLowConf hotelA).head?.map fun r => r.confidence)
      = some (some .low)
    ∧ ((post envLowConf).hotel.map fun h => h.name)
      = some "Grand Plaza Hotel Santa Monica"
    ∧ hotelA.name = "Grand Plaza"
    ∧ ("Grand Plaza Hotel Santa Monica" : String) ≠ "Grand Plaza" := by
  exact ⟨by decide, by decide, rfl, by decide⟩

/-- C8 (amended): the stored hotel name after a full fetch is exactly the
Google-resolved name — the details name whenever the Google result carries a
non-empty one (irrespective of its confidence label), and the original stored
name otherwise; equality of resolved and stored name leaves the row's name
unchanged. -/
theorem name_mutation_amended (e : FetchEnv) (hotel : Hotel)
    (hkeys : e.hasGoogleKey = true ∨ e.hasRapidApiKey = true)
    (hu : e.user.isSome = true) (hh : e.hotelRow = some hotel)
    (hcache : ¬(e.force = false ∧ 3 ≤ (recentRows e).length)) :
    ∃ h', (post e).hotel = some h' ∧
      h'.name = resolvedNameOf (googlePhase e hotel).1 hotel ∧
      (googleDetailsName (googlePhase e hotel).1 = none → h'.name = hotel.name) := by
  have hpost := post_fetch_eq e hotel hkeys hu hh hcache
  have hhot : (post e).hotel = some (finalHotelOf e hotel) := by rw [hpost]
  have hname : (finalHotelOf e hotel).name =
      resolvedNameOf (googlePhase e hotel).1 hotel := by
    have hf := (foldl_applyUrlUpdate_frame hotel (fetchResults e hotel)
      (nameUpdatedHotel (googlePhase e hotel).1 hotel)).2.2.1
    unfold finalHotelOf
    exact hf.trans (nameUpdatedHotel_name _ hotel)
  refine ⟨finalHotelOf e hotel, hhot, hname, fun hnone => ?_⟩
  rw [hname]
  simp [resolvedNameOf, hnone]

/-- Witness for C8's amended statement at the low-confidence invocation. -/
theorem name_mutation_amended_witness :
    ∃ h', (post envLowConf).hotel = some h' ∧
      h'.name = resolvedNameOf (googlePhase envLowConf hotelA).1 hotelA ∧
      (googleDetailsName (googlePhase envLowConf hotelA).1 = none →
        h'.name = hotelA.name) :=
  name_mutation_amended envLowConf hotelA (Or.inl rfl) rfl rfl
    (by simp [envLowConf, envForced, envCached])

/-- C7 counterexample: at raw internal score 2.7 the converted public value
is 6.75, but the stored `average_score` is 6.8 (the adapter rounds it to one
decimal), so "the converted value becomes the stored average_score" fails as
stated; the normalized score does equal the converted value here. -/
theorem booking_scale_cex :
    (fetchBookingCore .high (some (27/10)) 50 none).average_score = some (34/5)
    ∧ (fetchBookingCore .high (some (27/10)) 50 none).normalized_score = some (27/4)
    ∧ (27/10 : ℚ) * (5/2) = 27/4
    ∧ ((34/5 : ℚ) ≠ 27/4) := by
  have hts : truthyQ (some (27/10 : ℚ)) = some (27/10) := by norm_num [truthyQ]
  refine ⟨?_, ?_, by norm_num, by norm_num⟩
  · norm_num [fetchBookingCore, hts, round1, jsRound, emptyResult]
  · norm_num [fetchBookingCore, hts, normalizeScore, NORMALIZATION_FACTORS,
      round2, jsRound, emptyResult]

/-- C7 (amended): for a positive raw internal score `r` on the 0–4 scale, the
adapter multiplies by 2.5; the stored `average_score` is that converted value
rounded to 1 decimal, the converted value is the normalization input, and the
normalized score is the converted value rounded to 2 decimals (the booking
multiplier being 1); at raw 2.8 both stored and normalized score are exactly
7.0. -/
theorem booking_scale_amended :
    (∀ (conf : Confidence) (r : ℚ) (count : ℤ) (url : Option String), 0 < r →
      (fetchBookingCore conf (some r) count url).average_score
        = some (round1 (r * (5/2)))
      ∧ (fetchBookingCore conf (some r) count url).normalized_score
        = some (round2 (r * (5/2)))
      ∧ normalizeScore (r * (5/2)) .booking = round2 (r * (5/2)))
    ∧ (fetchBookingCore .high (some (14/5)) 100 none).average_score = some 7
    ∧ (fetchBookingCore .high (some (14/5)) 100 none).normalized_score = some 7 := by
  have hnorm : ∀ x : ℚ, normalizeScore x .booking = round2 x := by
    intro x
    simp [normalizeScore, NORMALIZATION_FACTORS]
  refine ⟨?_, ?_, ?_⟩
  · intro conf r count url hr
    have hts : truthyQ (some r) = some r := by simp [truthyQ, hr.ne']
    have hpos : (0:ℚ) < r * (5/2) := mul_pos hr (by norm_num)
    refine ⟨?_, ?_, hnorm _⟩ <;>
      simp [fetchBookingCore, hts, if_pos hpos, hnorm, hr]
  · norm_num [fetchBookingCore, truthyQ, round1, jsRound, emptyResult]
  · norm_num [fetchBookingCore, truthyQ, normalizeScore, NORMALIZATION_FACTORS,
      round2, jsRound, emptyResult]

/-- Witness for C7's amended statement at raw score 2. -/
theorem booking_scale_amended_witness :
    (fetchBookingCore .high (some 2) 100 none).average_score
      = some (round1 (2 * (5/2)))
    ∧ (fetchBookingCore .high (some 2) 100 none).normalized_score
      = some (round2 (2 * (5/2))) := by
  have h := booking_scale_amended.1 .high 2 100 none (by norm_num)
  exact ⟨h.1, h.2.1⟩

theorem strStarts_refl (l : List Char) : strStarts l l = true := by
  induction l with
  | nil => rfl
  | cons a t ih => simp [strStarts, ih]

theorem containsSubstr_self (s : String) : containsSubstr s s = true := by
  unfold containsSubstr
  cases h : s.data with
  | nil => simp [strHasSub, strStarts]
  | cons a t => simp [strHasSub, strStarts_refl]

theorem googleMatchCollapse (x y : String) :
    ((decide (x = y) || containsSubstr x y) || containsSubstr y x)
      = (containsSubstr x y || containsSubstr y x) := by
  by_cases h : x = y
  · subst h
    simp [containsSubstr_self]
  · simp [h]

theorem confIteCases (m : Bool) (med : Prop) [Decidable med] (conf : Confidence)
    (h : conf = if m then .high else if med then .medium else .low) :
    (conf = .high ↔ m = true) ∧ (conf = .medium ↔ (m = false ∧ med)) ∧
    (conf = .low ↔ (m = false ∧ ¬med)) := by
  by_cases hm : m <;> by_cases hd : med <;> simp [hm, hd] at h <;> simp [h, hm, hd]

/-- C9 counterexample: the Airbnb adapter assigns a constant `medium`
confidence to any accepted, rated candidate — even one whose name matches the
hotel's query name exactly, where the spec's rule demands `high` — so the
claimed uniform high/medium/low rule does not hold for every adapter. -/
theorem confidence_heuristic_cex :
    (fetchAirbnbReviewsModel "Grand Plaza" [grandPlazaListing] noReviewData).confidence
      = some .medium
    ∧ substrEitherCI "Grand Plaza" "Grand Plaza" = true
    ∧ specConfidence (substrEitherCI "Grand Plaza" "Grand Plaza") 1 3 = .high
    ∧ (Confidence.medium ≠ Confidence.high) := by
  refine ⟨by decide, by decide, by decide, by decide⟩

/-- C9 (amended): Google, TripAdvisor, Booking and Expedia each assign
`high` exactly on case-insensitive substring containment either way between
the query name and the top candidate's name, and otherwise `medium` under a
channel-specific few-candidates condition (Google: a single candidate;
TripAdvisor: at most 3 in the type-filtered pool; Booking: at most 3 results;
Expedia: at least one hotel-typed result and at most 5 results), else `low`;
the Airbnb adapter instead assigns a constant `medium` to every result it
produces a score for. -/
theorem confidence_heuristic_amended :
    (∀ (hotelName : String) (c : GCand) (rest : List GCand) (pid : String)
        (conf : Confidence),
      findGooglePlaceConfidence hotelName (c :: rest) = some (pid, conf) →
      pid = c.place_id ∧
      (conf = .high ↔ substrEitherCI c.name hotelName = true) ∧
      (conf = .medium ↔ substrEitherCI c.name hotelName = false ∧ rest = []) ∧
      (conf = .low ↔ substrEitherCI c.name hotelName = false ∧ rest ≠ []))
    ∧ (∀ (hotelName : String) (results : List TACand) (first : TACand)
        (rest : List TACand) (lid : String) (conf : Confidence),
      taSearchResults results = first :: rest →
      searchTripAdvisorModel hotelName results = some (lid, conf) →
      (conf = .high ↔ substrEitherCI (first.name.getD "") hotelName = true) ∧
      (conf = .medium ↔ substrEitherCI (first.name.getD "") hotelName = false ∧
        (first :: rest).length ≤ 3) ∧
      (conf = .low ↔ substrEitherCI (first.name.getD "") hotelName = false ∧
        ¬((first :: rest).length ≤ 3)))
    ∧ (∀ (hotelName : String) (r0 : BCand) (rs : List BCand) (hid : String)
        (conf : Confidence),
      searchBookingModel hotelName (r0 :: rs) = some (hid, conf) →
      (conf = .high ↔ substrEitherCI
        ((jsOrS ((bkHotelResults (r0 :: rs)).headD r0).name
                ((bkHotelResults (r0 :: rs)).headD r0).label).getD "") hotelName = true) ∧
      (conf = .medium ↔ substrEitherCI
        ((jsOrS ((bkHotelResults (r0 :: rs)).headD r0).name
                ((bkHotelResults (r0 :: rs)).headD r0).label).getD "") hotelName = false ∧
        (r0 :: rs).length ≤ 3) ∧
      (conf = .low ↔ substrEitherCI
        ((jsOrS ((bkHotelResults (r0 :: rs)).headD r0).name
                ((bkHotelResults (r0 :: rs)).headD r0).label).getD "") hotelName = false ∧
        ¬((r0 :: rs).length ≤ 3)))
    ∧ (∀ (hotelName : String) (r0 : ECand) (rs : List ECand) (hid : String)
        (conf : Confidence),
      searchExpediaModel hotelName (r0 :: rs) = some (hid, conf) →
      (conf = .high ↔ substrEitherCI
        ((jsOrS ((exHotelResults (r0 :: rs)).headD r0).primaryDisplayName
          (jsOrS ((exHotelResults (r0 :: rs)).headD r0).shortName
                 ((exHotelResults (r0 :: rs)).headD r0).fullName)).getD "") hotelName
          = true) ∧
      (conf = .medium ↔ substrEitherCI
        ((jsOrS ((exHotelResults (r0 :: rs)).headD r0).primaryDisplayName
          (jsOrS ((exHotelResults (r0 :: rs)).headD r0).shortName
                 ((exHotelResults (r0 :: rs)).headD r0).fullName)).getD "") hotelName
          = false ∧
        (0 < (exHotelResults (r0 :: rs)).length ∧ (r0 :: rs).length ≤ 5)) ∧
      (conf = .low ↔ substrEitherCI
        ((jsOrS ((exHotelResults (r0 :: rs)).headD r0).primaryDisplayName
          (jsOrS ((exHotelResults (r0 :: rs)).headD r0).shortName
                 ((exHotelResults (r0 :: rs)).headD r0).fullName)).getD "") hotelName
          = false ∧
        ¬(0 < (exHotelResults (r0 :: rs)).length ∧ (r0 :: rs).length ≤ 5)))
    ∧ (∀ (hotelName : String) (results : List AirbnbRaw) (d : AirbnbReviewsData),
      ((fetchAirbnbReviewsModel hotelName results d).average_score).isSome = true →
      (fetchAirbnbReviewsModel hotelName results d).confidence = some .medium) := by
  refine ⟨?_, ?_, ?_, ?_, ?_⟩
  · intro hotelName c rest pid conf h
    simp only [findGooglePlaceConfidence, Option.some.injEq, Prod.mk.injEq] at h
    obtain ⟨hpid, hconf⟩ := h
    refine ⟨hpid.symm, ?_⟩
    have hcol := googleMatchCollapse (strLower c.name) (strLower hotelName)
    rw [hcol] at hconf
    have hiff := confIteCases (substrEitherCI c.name hotelName)
      ((c :: rest).length = 1) conf (by rw [← hconf]; rfl)
    have hlen : ((c :: rest).length = 1) ↔ rest = [] := by
      simp [List.length_eq_zero]
    rw [hlen] at hiff
    exact ⟨hiff.1, hiff.2.1, by rw [hiff.2.2]⟩
  · intro hotelName results first rest lid conf hts h
    cases results with
    | nil => simp [taSearchResults] at hts
    | cons q qs =>
      simp only [searchTripAdvisorModel, hts] at h
      rcases hl : truthyS first.locationId with _ | lid'
      · rw [hl] at h
        simp at h
      · rw [hl] at h
        simp only [Option.some.injEq, Prod.mk.injEq] at h
        obtain ⟨hlid, hconf⟩ := h
        exact confIteCases (substrEitherCI (first.name.getD "") hotelName)
          ((first :: rest).length ≤ 3) conf (by rw [← hconf]; rfl)
  · intro hotelName r0 rs hid conf h
    simp only [searchBookingModel] at h
    rcases hl : jsOrS ((bkHotelResults (r0 :: rs)).headD r0).dest_id
        (jsOrS ((bkHotelResults (r0 :: rs)).headD r0).hotel_id
               ((bkHotelResults (r0 :: rs)).headD r0).idf) with _ | hid'
    · rw [hl] at h
      simp at h
    · rw [hl] at h
      simp only [Option.some.injEq, Prod.mk.injEq] at h
      obtain ⟨hhid, hconf⟩ := h
      exact confIteCases _ ((r0 :: rs).length ≤ 3) conf (by rw [← hconf]; rfl)
  · intro hotelName r0 rs hid conf h
    simp only [searchExpediaModel] at h
    rcases hl : jsOrS ((exHotelResults (r0 :: rs)).headD r0).hotelIdf
        (jsOrS ((exHotelResults (r0 :: rs)).headD r0).gaiaId
               ((exHotelResults (r0 :: rs)).headD r0).regionId) with _ | hid'
    · rw [hl] at h
      simp at h
    · rw [hl] at h
      simp only [Option.some.injEq, Prod.mk.injEq] at h
      obtain ⟨hhid, hconf⟩ := h
      exact confIteCases _
        (0 < (exHotelResults (r0 :: rs)).length ∧ (r0 :: rs).length ≤ 5) conf
        (by rw [← hconf]; rfl)
  · intro hotelName results d havg
    rcases hs : searchAirbnbModel hotelName results with _ | found
    · simp [fetchAirbnbReviewsModel, hs, emptyResult] at havg
    · by_cases hid : found.id = ""
      · simp [fetchAirbnbReviewsModel, hs, hid, emptyResult] at havg
      · rcases hr : truthyQ found.rating with _ | r
        · rcases hr2 : truthyQ d.rating with _ | r2
          · simp [fetchAirbnbReviewsModel, hs, hid, hr, hr2, emptyResult] at havg
          · simp [fetchAirbnbReviewsModel, hs, hid, hr, hr2, emptyResult]
        · simp [fetchAirbnbReviewsModel, hs, hid, hr, emptyResult]

/-- Witness for C9's amended statement: the exact-name-match Airbnb candidate
still yields `medium`. -/
theorem confidence_heuristic_amended_witness :
    (fetchAirbnbReviewsModel "Grand Plaza" [grandPlazaListing] noReviewData).confidence
      = some .medium :=
  confidence_heuristic_amended.2.2.2.2 "Grand Plaza" [grandPlazaListing]
    noReviewData (by decide)

end KasaRep
